import Mathlib

/-!
# Verification of the dual-sensor water-level monitor

Shallow embedding of the leak-detection and sensor-health core of the
CastleLabs/water-level repository (`sensor.py`, `water_monitor.py`).

Modelling conventions:
* Python floats are modelled as exact rationals (`ℚ`); raw ADC values are `ℤ`.
* Timestamps (`time.time()`) are `ℚ` parameters threaded explicitly.
* Python's `round(x, 1)` (round-half-to-even at one decimal) is `roundTo1`.
* A Python `deque(maxlen=100)` is a list, oldest first, capped by `pushCap`.
* Code that can raise an exception returns `Except Unit _`; `Except.error ()`
  stands for an uncaught Python exception at that point.
-/

namespace WaterLevel

/-- Round-half-to-even to the nearest integer, as Python's builtin `round`
behaves on exact values. -/
def roundHalfEvenInt (q : ℚ) : ℤ :=
  let f := ⌊q⌋
  if q - f < 1/2 then f
  else if 1/2 < q - f then f + 1
  else if Even f then f else f + 1

/-- Python's `round(x, 1)`: round to one decimal place, ties to even. -/
def roundTo1 (q : ℚ) : ℚ := (roundHalfEvenInt (q * 10) : ℚ) / 10

/-- `max(0, min(100, x))` from `sensor.py:347`. -/
def clamp01 (q : ℚ) : ℚ := max 0 (min 100 q)

/-- The last `n` elements of a list (Python `l[-n:]`). -/
def lastN (n : ℕ) (l : List α) : List α := l.drop (l.length - n)

/-- Python `max(l)` for a nonempty list (0 on the empty list, never used there). -/
def listMax : List ℚ → ℚ
  | [] => 0
  | x :: xs => xs.foldl max x

/-- Python `min(l)` for a nonempty list (0 on the empty list, never used there). -/
def listMin : List ℚ → ℚ
  | [] => 0
  | x :: xs => xs.foldl min x

/-- Append to a `deque(maxlen=100)`: oldest entries are evicted from the front. -/
def pushCap (l : List α) (x : α) : List α :=
  let l2 := l ++ [x]
  if 100 < l2.length then l2.drop (l2.length - 100) else l2

/-- Decidable equality for `Except`, used to evaluate closed claims about
raising code paths. -/
instance {e a : Type} [DecidableEq e] [DecidableEq a] : DecidableEq (Except e a) :=
  fun x y =>
    match x, y with
    | Except.error e1, Except.error e2 => decidable_of_iff (e1 = e2) (by simp)
    | Except.error _, Except.ok _ => isFalse (by simp)
    | Except.ok _, Except.error _ => isFalse (by simp)
    | Except.ok a1, Except.ok a2 => decidable_of_iff (a1 = a2) (by simp)

/-- The `health_status` field of `SensorHealthMonitor` (`sensor.py:36`). -/
inductive HStatus
  | healthy
  | degraded
  | failed
deriving DecidableEq, Repr

/-- The issue strings appended by `check_health` and its sub-checks, with the
formatted numeric payload carried as data. `calibrationDrift` is listed for
completeness but is unreachable in the source (see `checkCalibrationDrift`). -/
inductive Issue
  | consecutiveReadErrors (n : ℕ)     -- sensor.py:55
  | unstableVoltage (range : ℚ)       -- sensor.py:97
  | voltageTooLow                     -- sensor.py:102
  | voltageTooHigh                    -- sensor.py:104
  | calibrationDrift (drift : ℚ)      -- sensor.py:132 (dead code, see below)
  | sensorStuck (unique : ℕ)          -- sensor.py:146
deriving DecidableEq, Repr

/-- State of `SensorHealthMonitor` (`sensor.py:26-36`). Histories are lists of
`(timestamp, value)` pairs, oldest first, capacity 100. -/
structure HealthMonitor where
  sensorName : String
  voltageHistory : List (ℚ × ℚ)
  rawHistory : List (ℚ × ℤ)
  lastCalibrationCheck : ℚ
  consecutiveErrors : ℕ
  healthStatus : HStatus
deriving DecidableEq, Repr

/-- `SensorHealthMonitor.update_readings` (`sensor.py:38-42`): append to both
histories at the current time and reset `consecutive_errors`. -/
def updateReadings (now : ℚ) (voltage : ℚ) (raw : ℤ) (m : HealthMonitor) :
    HealthMonitor :=
  { m with
    voltageHistory := pushCap m.voltageHistory (now, voltage)
    rawHistory := pushCap m.rawHistory (now, raw)
    consecutiveErrors := 0 }

/-- `SensorHealthMonitor.record_error` (`sensor.py:44-46`). -/
def recordError (m : HealthMonitor) : HealthMonitor :=
  { m with consecutiveErrors := m.consecutiveErrors + 1 }

/-- The `recent_voltages` local of `_check_voltage_stability` (`sensor.py:92`). -/
def last10Voltages (m : HealthMonitor) : List ℚ :=
  lastN 10 (m.voltageHistory.map Prod.snd)

/-- The `voltage_range` local of `_check_voltage_stability` (`sensor.py:93`). -/
def last10Range (m : HealthMonitor) : ℚ :=
  listMax (last10Voltages m) - listMin (last10Voltages m)

/-- The `avg_voltage` local of `_check_voltage_stability` (`sensor.py:100`). -/
def last10Mean (m : HealthMonitor) : ℚ :=
  (last10Voltages m).sum / ((last10Voltages m).length : ℚ)

/-- `SensorHealthMonitor._check_voltage_stability` (`sensor.py:87-106`):
with fewer than 10 samples, no issue; otherwise over the last 10 voltages,
in this order: range > 0.5 ⇒ unstable (returns immediately); mean < 0.1 ⇒
too low; mean > 3.2 ⇒ too high; else nothing. -/
def checkVoltageStability (m : HealthMonitor) : Option Issue :=
  if m.voltageHistory.length < 10 then none
  else if 1/2 < last10Range m then some (Issue.unstableVoltage (last10Range m))
  else if last10Mean m < 1/10 then some Issue.voltageTooLow
  else if 16/5 < last10Mean m then some Issue.voltageTooHigh
  else none

/-- `SensorHealthMonitor._check_calibration_drift` (`sensor.py:108-134`).

The source builds the two windows with
`[v[1] for t, v in self.voltage_history if now - t > 82800]` (line 119) and
`[v[1] for t, v in self.voltage_history if now - t < 3600]` (line 120).
Each history element is a `(timestamp, voltage)` pair, so the unpacking
`for t, v` binds `v` to the voltage (a float) and `v[1]` raises `TypeError`
as soon as any element passes the filter.  Hence: the comprehension of
line 119 raises iff some sample is older than 23 hours; otherwise that of
line 120 raises iff some sample is within the last hour; otherwise both
windows are empty and the `len < 5` guard (line 122) returns `None` before
`self.last_calibration_check` is ever updated (line 129) or a drift issue
produced (line 132) — those two lines are unreachable. -/
def checkCalibrationDrift (now : ℚ) (m : HealthMonitor) :
    Except Unit (Option Issue) :=
  if now - m.lastCalibrationCheck < 86400 then Except.ok none
  else if m.voltageHistory.length < 50 then Except.ok none
  else if m.voltageHistory.any (fun p => 82800 < now - p.1) then Except.error ()
  else if m.voltageHistory.any (fun p => now - p.1 < 3600) then Except.error ()
  else Except.ok none

/-- `SensorHealthMonitor._check_stuck_readings` (`sensor.py:136-148`). -/
def checkStuckReadings (m : HealthMonitor) : Option Issue :=
  if m.rawHistory.length < 20 then none
  else
    let recent := lastN 20 (m.rawHistory.map Prod.snd)
    let unique := recent.dedup.length
    if unique < 3 then some (Issue.sensorStuck unique) else none

/-- `SensorHealthMonitor._calculate_voltage_stability` (`sensor.py:150-160`). -/
def voltageStabilityScore (m : HealthMonitor) : ℚ :=
  if m.voltageHistory.length < 5 then 50
  else
    let voltages := lastN 20 (m.voltageHistory.map Prod.snd)
    let range := listMax voltages - listMin voltages
    roundTo1 (max 0 (100 - range * 100))

/-- The dictionary returned by `check_health` (`sensor.py:78-85`). -/
structure HealthReport where
  sensor : String
  status : HStatus
  issues : List Issue
  lastVoltage : ℚ
  voltageStability : ℚ
  consecutiveErrors : ℕ
deriving DecidableEq, Repr

/-- The error-streak mutation at the top of `check_health` (`sensor.py:53-54`):
if `consecutive_errors > 5` the status is forced to `failed` before any other
sub-check runs. -/
def preMonitor (m : HealthMonitor) : HealthMonitor :=
  if 5 < m.consecutiveErrors then { m with healthStatus := HStatus.failed } else m

/-- The status-resolution rule of `check_health` (`sensor.py:72-76`): no
issues and a `failed` status demotes to `healthy`; issues and a `healthy`
status promotes to `degraded`; otherwise the status is sticky. -/
def resolveStatus (issues : List Issue) (st : HStatus) : HStatus :=
  if issues = [] ∧ st = HStatus.failed then HStatus.healthy
  else if issues ≠ [] ∧ st = HStatus.healthy then HStatus.degraded
  else st

/-- The full issue list accumulated by `check_health` (`sensor.py:50-70`) on
the non-raising path, given the drift sub-check result `driftIssue`. -/
def issuesFor (m : HealthMonitor) (driftIssue : Option Issue) : List Issue :=
  (if 5 < m.consecutiveErrors then [Issue.consecutiveReadErrors m.consecutiveErrors] else [])
    ++ (checkVoltageStability (preMonitor m)).toList
    ++ driftIssue.toList
    ++ (checkStuckReadings (preMonitor m)).toList

/-- The monitor state after `check_health` resolves the status
(`sensor.py:72-76`). -/
def postMonitor (m : HealthMonitor) (issues : List Issue) : HealthMonitor :=
  { preMonitor m with healthStatus := resolveStatus issues (preMonitor m).healthStatus }

/-- The dictionary literal returned by `check_health` (`sensor.py:78-85`). -/
def mkReport (m2 : HealthMonitor) (issues : List Issue) : HealthReport :=
  { sensor := m2.sensorName
    status := m2.healthStatus
    issues := issues
    lastVoltage := ((m2.voltageHistory.getLast?).map Prod.snd).getD 0
    voltageStability := voltageStabilityScore m2
    consecutiveErrors := m2.consecutiveErrors }

/-- `SensorHealthMonitor.check_health` (`sensor.py:48-85`). Returns the report
(or `Except.error ()` when the drift sub-check raises its `TypeError`, which
propagates out of `check_health`) together with the post-call monitor state;
the `consecutive_errors > 5 ⇒ failed` mutation of line 54 happens before the
drift check and therefore persists even on the raising path. -/
def checkHealth (now : ℚ) (m : HealthMonitor) :
    Except Unit HealthReport × HealthMonitor :=
  match checkCalibrationDrift now (preMonitor m) with
  | Except.error e => (Except.error e, preMonitor m)
  | Except.ok di =>
    (Except.ok (mkReport (postMonitor m (issuesFor m di)) (issuesFor m di)),
     postMonitor m (issuesFor m di))

/-- Pre-clamp percentage of `WaterLevelSensor.read_percentage`
(`sensor.py:336-344`): `(empty - raw)/(empty - full) * 100` when
`calibration_empty > calibration_full`, else the inverted numerator
`(raw - full)/(empty - full) * 100`. -/
def preClampPercentage (empty full raw : ℤ) : ℚ :=
  if full < empty then ((empty : ℚ) - (raw : ℚ)) / ((empty : ℚ) - (full : ℚ)) * 100
  else ((raw : ℚ) - (full : ℚ)) / ((empty : ℚ) - (full : ℚ)) * 100

/-- State of `WaterLevelSensor` (`sensor.py:250-276`).  The source field
`auto_recovery_enabled` is `autoRecovery` here. -/
structure Sensor where
  calibrationEmpty : ℤ
  calibrationFull : ℤ
  lastReading : Option ℤ
  lastVoltage : Option ℚ
  lastPercentage : Option ℚ
  healthMonitor : HealthMonitor
  autoRecovery : Bool
deriving DecidableEq, Repr

/-- Outcome of the acquisition phase of `read_percentage` (`sensor.py:330-331`,
the averaged `read_raw()` / `read_voltage()` pair): either the acquired
values, or an exception raised during acquisition. -/
inductive AcqResult
  | ok (raw : ℤ) (voltage : ℚ)
  | raises
deriving DecidableEq, Repr

/-- `WaterLevelSensor.read_percentage` (`sensor.py:322-359`).

The `try` body: acquire raw and voltage (updating `last_reading` /
`last_voltage`), feed `update_readings`, compute the branch percentage, clamp
to `[0,100]`, round to one decimal, store it in `last_percentage`, then run
the auto-recovery check (`sensor.py:351`, `_should_attempt_recovery`, which —
when `auto_recovery_enabled` — calls `check_health` and can therefore itself
raise the drift-check `TypeError`).  Any exception lands in the `except`
(`sensor.py:356-359`): `record_error()` then `return self.last_percentage or 0`.

Exception points modelled: acquisition (`AcqResult.raises`); the
`ZeroDivisionError` of the inverted branch when
`calibration_empty == calibration_full`; and the drift `TypeError` inside the
recovery check.  `_attempt_auto_recovery` only performs throwaway hardware
reads and catches its own exceptions, so it has no effect on this state. -/
def readPercentage (now : ℚ) (acq : AcqResult) (s : Sensor) : ℚ × Sensor :=
  match acq with
  | AcqResult.raises =>
    (s.lastPercentage.getD 0, { s with healthMonitor := recordError s.healthMonitor })
  | AcqResult.ok raw v =>
    let s1 : Sensor := { s with
      lastReading := some raw
      lastVoltage := some v
      healthMonitor := updateReadings now v raw s.healthMonitor }
    if s1.calibrationEmpty = s1.calibrationFull then
      -- ZeroDivisionError at sensor.py:343-344 (the else-branch denominator is 0)
      (s1.lastPercentage.getD 0, { s1 with healthMonitor := recordError s1.healthMonitor })
    else
      let pct := roundTo1 (clamp01 (preClampPercentage s1.calibrationEmpty s1.calibrationFull raw))
      let s2 := { s1 with lastPercentage := some pct }
      if s2.autoRecovery then
        match checkHealth now s2.healthMonitor with
        | (Except.error _, hm) =>
          -- TypeError from the drift sub-check, caught at sensor.py:356
          (s2.lastPercentage.getD 0, { s2 with healthMonitor := recordError hm })
        | (Except.ok _, hm) => (pct, { s2 with healthMonitor := hm })
      else (pct, s2)

/-- Configuration fields consumed by `WaterMonitor._check_for_leak` and
`_trigger_alert` (`water_monitor.py:183`, `190`, `208`). -/
structure LeakConfig where
  leakThreshold : ℚ
  readingsNeeded : ℕ
  alertCooldown : ℚ
deriving DecidableEq, Repr

/-- Leak-detection state of `WaterMonitor` (`water_monitor.py:39-40`) together
with the observable effects on the collaborators: `alertTimes` records the
timestamps of persisted alert rows (`db.add_alert`, `water_monitor.py:223`)
and `dispatchCount` the invocations of `slack.send_leak_alert`
(`water_monitor.py:227`). -/
structure LeakState where
  consecutiveLeakReadings : ℕ
  lastAlertTime : Option ℚ
  alertTimes : List ℚ
  dispatchCount : ℕ
deriving DecidableEq, Repr

/-- State at process start (`water_monitor.py:39-40`): no prior alert, zero
consecutive leak readings, nothing persisted or dispatched. -/
def initLeakState : LeakState :=
  { consecutiveLeakReadings := 0, lastAlertTime := none
    alertTimes := [], dispatchCount := 0 }

/-- `WaterMonitor._trigger_alert` (`water_monitor.py:200-235`): if a previous
alert exists and `now - last_alert_time < alert_cooldown`, return with the
state untouched (the counter is *not* reset on this path); otherwise persist
an alert row, set `last_alert_time := now`, dispatch the notification and
reset the counter to 0. -/
def triggerAlert (cfg : LeakConfig) (now : ℚ) (s : LeakState) : LeakState :=
  match s.lastAlertTime with
  | some t =>
    if now - t < cfg.alertCooldown then s
    else
      { consecutiveLeakReadings := 0, lastAlertTime := some now
        alertTimes := s.alertTimes ++ [now], dispatchCount := s.dispatchCount + 1 }
  | none =>
      { consecutiveLeakReadings := 0, lastAlertTime := some now
        alertTimes := s.alertTimes ++ [now], dispatchCount := s.dispatchCount + 1 }

/-- `WaterMonitor._check_for_leak` (`water_monitor.py:176-198`): if
`abs(difference) > leak_threshold`, increment the consecutive counter and
attempt an alert once it reaches `consecutive_readings_for_alert`; otherwise
reset the counter to 0. -/
def checkForLeak (cfg : LeakConfig) (now : ℚ) (difference : ℚ) (s : LeakState) :
    LeakState :=
  if cfg.leakThreshold < |difference| then
    let s1 := { s with consecutiveLeakReadings := s.consecutiveLeakReadings + 1 }
    if cfg.readingsNeeded ≤ s1.consecutiveLeakReadings then triggerAlert cfg now s1
    else s1
  else { s with consecutiveLeakReadings := 0 }

/-- Run `_check_for_leak` over a sequence of `(timestamp, difference)`
readings, as the monitoring loop does once per cycle
(`water_monitor.py:141-151`). -/
def processReadings (cfg : LeakConfig) : List (ℚ × ℚ) → LeakState → LeakState
  | [], s => s
  | p :: rest, s => processReadings cfg rest (checkForLeak cfg p.1 p.2 s)

/-- A raised Python exception type, for calls that escape to the caller. -/
inductive PyError
  | attributeError
deriving DecidableEq, Repr

/-- The dictionary `WaterMonitor.tare_sensor` is supposed to return. -/
structure TareResult where
  success : Bool
  oldEmpty : Option ℤ
  newEmpty : Option ℤ
  voltage : Option ℚ
deriving DecidableEq, Repr

/-- The attribute names defined by `class DualSensorMonitor`
(`sensor.py:421-570`), read off its `def` statements. -/
def dualSensorMonitorMethods : List String :=
  ["__init__", "initialize", "read_both", "calibrate_sensor",
   "get_calibration_values", "get_system_health", "cleanup"]

/-- `WaterMonitor.tare_sensor` (`water_monitor.py:267-302`): if the sensors
are not initialized, return `{'success': False, 'error': ...}`; otherwise
evaluate `self.sensors.tare_sensor(sensor_name)` — a Python attribute lookup
on `DualSensorMonitor`, which defines no `tare_sensor` attribute (see
`dualSensorMonitorMethods`), so the lookup raises `AttributeError` and the
exception propagates to the caller (there is no `try` around it). -/
def waterMonitorTareSensor (sensorsReady : Bool) (_sensorName : String) :
    Except PyError TareResult :=
  if ¬ sensorsReady then
    Except.ok { success := false, oldEmpty := none, newEmpty := none, voltage := none }
  else if "tare_sensor" ∈ dualSensorMonitorMethods then
    -- unreachable: DualSensorMonitor defines no tare_sensor method
    Except.ok { success := true, oldEmpty := none, newEmpty := none, voltage := none }
  else Except.error PyError.attributeError

/-! ## Helper lemmas -/

lemma floor_le_roundHalfEvenInt (q : ℚ) : ⌊q⌋ ≤ roundHalfEvenInt q := by
  unfold roundHalfEvenInt
  simp only []
  split_ifs <;> omega

lemma roundHalfEvenInt_le_floor_add_one (q : ℚ) : roundHalfEvenInt q ≤ ⌊q⌋ + 1 := by
  unfold roundHalfEvenInt
  simp only []
  split_ifs <;> omega

lemma roundTo1_nonneg {q : ℚ} (h : 0 ≤ q) : 0 ≤ roundTo1 q := by
  unfold roundTo1
  have h1 : (0 : ℤ) ≤ ⌊q * 10⌋ := Int.floor_nonneg.mpr (by positivity)
  have h2 := floor_le_roundHalfEvenInt (q * 10)
  have : (0 : ℚ) ≤ (roundHalfEvenInt (q * 10) : ℚ) := by exact_mod_cast le_trans h1 h2
  positivity

lemma roundTo1_le_100 {q : ℚ} (h : q ≤ 100) : roundTo1 q ≤ 100 := by
  unfold roundTo1
  have hx : q * 10 ≤ 1000 := by linarith
  have hf : ⌊q * 10⌋ ≤ 1000 := by
    have := Int.floor_le_floor hx
    simpa using this
  have hn : roundHalfEvenInt (q * 10) ≤ 1000 := by
    rcases lt_or_eq_of_le hf with hlt | heq
    · have := roundHalfEvenInt_le_floor_add_one (q * 10)
      omega
    · have hge : (1000 : ℚ) ≤ q * 10 := by
        have := Int.floor_le (q * 10)
        rw [heq] at this
        exact_mod_cast this
      have hxeq : q * 10 = 1000 := le_antisymm hx hge
      unfold roundHalfEvenInt
      rw [heq, hxeq]
      norm_num
  have : (roundHalfEvenInt (q * 10) : ℚ) ≤ 1000 := by exact_mod_cast hn
  linarith

lemma clamp01_nonneg (q : ℚ) : 0 ≤ clamp01 q := le_max_left 0 _

lemma clamp01_le_100 (q : ℚ) : clamp01 q ≤ 100 :=
  max_le (by norm_num) (min_le_left 100 q)

/-- The return value of `read_percentage` on successful acquisition with
unequal calibration endpoints: the rounded, clamped branch formula, on every
internal branch (including the one where the auto-recovery health check
raises, since by then `last_percentage` already holds the new value). -/
lemma readPercentage_ok_fst (now : ℚ) (s : Sensor) (raw : ℤ) (v : ℚ)
    (h : s.calibrationEmpty ≠ s.calibrationFull) :
    (readPercentage now (AcqResult.ok raw v) s).1 =
      roundTo1 (clamp01 (preClampPercentage s.calibrationEmpty s.calibrationFull raw)) := by
  unfold readPercentage
  simp only [h, if_false]
  split
  · split <;> rfl
  · rfl

/-! ## Concrete states used by closed theorems and witnesses -/

/-- A health monitor whose drift sub-check actually runs: the last check was
100000 seconds ago, there are 50 voltage samples, 5 of them older than
23 hours (at t = 1000 with now = 100000). -/
def driftMon : HealthMonitor :=
  { sensorName := "Reference"
    voltageHistory := List.replicate 5 ((1000 : ℚ), (1 : ℚ)) ++
                      List.replicate 45 ((99000 : ℚ), (1 : ℚ))
    rawHistory := []
    lastCalibrationCheck := 0
    consecutiveErrors := 0
    healthStatus := HStatus.healthy }

/-- A sensor with a cached percentage of 50 whose auto-recovery health check
will raise (its monitor is `driftMon`). -/
def cSensor : Sensor :=
  { calibrationEmpty := 800, calibrationFull := 400
    lastReading := none, lastVoltage := none, lastPercentage := some 50
    healthMonitor := driftMon, autoRecovery := true }

/-- Ten voltage samples: nine readings of 0 V and one of 0.9 V; the mean
0.09 V is below the 0.1 V disconnection threshold while the range 0.9 V
exceeds the 0.5 V stability threshold. -/
def vMon : HealthMonitor :=
  { sensorName := "Reference"
    voltageHistory := (List.range 9).map (fun i => ((i : ℚ), (0 : ℚ))) ++ [((9 : ℚ), (9/10 : ℚ))]
    rawHistory := []
    lastCalibrationCheck := 0
    consecutiveErrors := 0
    healthStatus := HStatus.healthy }

/-- Ten voltage samples all at 0.05 V: stable range, mean below 0.1 V. -/
def vMonLow : HealthMonitor :=
  { sensorName := "Control"
    voltageHistory := (List.range 10).map (fun i => ((i : ℚ), (1/20 : ℚ)))
    rawHistory := []
    lastCalibrationCheck := 0
    consecutiveErrors := 0
    healthStatus := HStatus.healthy }

/-- A degraded monitor with no samples and no errors. -/
def degradedMon : HealthMonitor :=
  { sensorName := "Reference"
    voltageHistory := []
    rawHistory := []
    lastCalibrationCheck := 0
    consecutiveErrors := 0
    healthStatus := HStatus.degraded }

/-- A sensor with ordinary calibration (empty 800 > full 400), no recovery. -/
def sWit : Sensor :=
  { calibrationEmpty := 800, calibrationFull := 400
    lastReading := none, lastVoltage := none, lastPercentage := none
    healthMonitor := degradedMon, autoRecovery := false }

/-- A sensor whose two calibration endpoints are equal (division fault). -/
def sEq : Sensor :=
  { calibrationEmpty := 500, calibrationFull := 500
    lastReading := none, lastVoltage := none, lastPercentage := some (25 : ℚ)
    healthMonitor := degradedMon, autoRecovery := true }

/-! ## Claim theorems -/

/-- C1. Leak hysteresis: with threshold 5.0, 3 consecutive readings needed and
no prior alert time, three consecutive readings of difference 6.0 persist
exactly one alert record and reset the consecutive counter to 0, and a
subsequent reading of difference 2.0 leaves the counter at 0 with no further
alert; in general a reading with `abs(difference)` strictly above the
threshold increments the counter (unless the alert fires on that very
reading, in which case it is reset to 0 and an alert is persisted), and any
other reading resets it to 0. -/
theorem leak_hysteresis :
    (let cfg : LeakConfig := { leakThreshold := 5, readingsNeeded := 3, alertCooldown := 3600 }
     let s3 := checkForLeak cfg 120 6 (checkForLeak cfg 60 6 (checkForLeak cfg 0 6 initLeakState))
     let s4 := checkForLeak cfg 180 2 s3
     s3.alertTimes.length = 1 ∧ s3.consecutiveLeakReadings = 0 ∧
     s4.alertTimes.length = 1 ∧ s4.consecutiveLeakReadings = 0 ∧ s4.dispatchCount = 1) ∧
    ∀ (cfg : LeakConfig) (now d : ℚ) (s : LeakState),
      (|d| ≤ cfg.leakThreshold →
        checkForLeak cfg now d s = { s with consecutiveLeakReadings := 0 }) ∧
      (cfg.leakThreshold < |d| →
        ((checkForLeak cfg now d s).consecutiveLeakReadings = s.consecutiveLeakReadings + 1 ∧
         (checkForLeak cfg now d s).alertTimes = s.alertTimes) ∨
        ((checkForLeak cfg now d s).consecutiveLeakReadings = 0 ∧
         (checkForLeak cfg now d s).alertTimes = s.alertTimes ++ [now])) := by
  refine ⟨by with_unfolding_all decide, ?_⟩
  intro cfg now d s
  constructor
  · intro h
    unfold checkForLeak
    rw [if_neg (not_lt.mpr h)]
  · intro h
    unfold checkForLeak triggerAlert
    rw [if_pos h]
    by_cases h2 : cfg.readingsNeeded ≤ s.consecutiveLeakReadings + 1
    · rw [if_pos h2]
      cases hla : s.lastAlertTime with
      | none => right; exact ⟨by simp, by simp⟩
      | some t =>
        by_cases h3 : now - t < cfg.alertCooldown
        · left; exact ⟨by simp [h3], by simp [h3]⟩
        · right; exact ⟨by simp [h3], by simp [h3]⟩
    · rw [if_neg h2]; left; exact ⟨rfl, rfl⟩

/-- C1 witness: the general transition rule at concrete qualifying and
non-qualifying inputs. -/
theorem leak_hysteresis_witness :
    (checkForLeak { leakThreshold := 5, readingsNeeded := 3, alertCooldown := 3600 }
        0 2 initLeakState = { initLeakState with consecutiveLeakReadings := 0 }) ∧
    (((checkForLeak { leakThreshold := 5, readingsNeeded := 3, alertCooldown := 3600 }
        0 6 initLeakState).consecutiveLeakReadings =
          initLeakState.consecutiveLeakReadings + 1 ∧
      (checkForLeak { leakThreshold := 5, readingsNeeded := 3, alertCooldown := 3600 }
        0 6 initLeakState).alertTimes = initLeakState.alertTimes) ∨
     ((checkForLeak { leakThreshold := 5, readingsNeeded := 3, alertCooldown := 3600 }
        0 6 initLeakState).consecutiveLeakReadings = 0 ∧
      (checkForLeak { leakThreshold := 5, readingsNeeded := 3, alertCooldown := 3600 }
        0 6 initLeakState).alertTimes = initLeakState.alertTimes ++ [0])) :=
  ⟨(leak_hysteresis.2 { leakThreshold := 5, readingsNeeded := 3, alertCooldown := 3600 }
      0 2 initLeakState).1 (by norm_num),
   (leak_hysteresis.2 { leakThreshold := 5, readingsNeeded := 3, alertCooldown := 3600 }
      0 6 initLeakState).2 (by norm_num)⟩

/-- C3. Percentage computation: on successful acquisition with
`calibration_empty > calibration_full`, `read_percentage` returns
`round1(clamp(((empty - raw)/(empty - full)) * 100))`; the pre-clamp formula
yields 0 at `raw = empty` and 100 at `raw = full`; and the returned value
always lies in `[0, 100]` however far out of range the raw value is. -/
theorem read_percentage_formula (now : ℚ) (s : Sensor) (raw : ℤ) (v : ℚ)
    (h : s.calibrationFull < s.calibrationEmpty) :
    (readPercentage now (AcqResult.ok raw v) s).1 =
      roundTo1 (clamp01 (((s.calibrationEmpty : ℚ) - (raw : ℚ)) /
        ((s.calibrationEmpty : ℚ) - (s.calibrationFull : ℚ)) * 100)) ∧
    preClampPercentage s.calibrationEmpty s.calibrationFull s.calibrationEmpty = 0 ∧
    preClampPercentage s.calibrationEmpty s.calibrationFull s.calibrationFull = 100 ∧
    0 ≤ (readPercentage now (AcqResult.ok raw v) s).1 ∧
    (readPercentage now (AcqResult.ok raw v) s).1 ≤ 100 := by
  have hne : s.calibrationEmpty ≠ s.calibrationFull := ne_of_gt h
  have hfst := readPercentage_ok_fst now s raw v hne
  have hform : preClampPercentage s.calibrationEmpty s.calibrationFull raw =
      ((s.calibrationEmpty : ℚ) - (raw : ℚ)) /
        ((s.calibrationEmpty : ℚ) - (s.calibrationFull : ℚ)) * 100 := by
    unfold preClampPercentage
    rw [if_pos h]
  have hd : ((s.calibrationEmpty : ℚ) - (s.calibrationFull : ℚ)) ≠ 0 := by
    have hlt : (s.calibrationFull : ℚ) < (s.calibrationEmpty : ℚ) := by exact_mod_cast h
    exact sub_ne_zero.mpr (ne_of_gt hlt)
  refine ⟨by rw [hfst, hform], ?_, ?_, ?_, ?_⟩
  · unfold preClampPercentage
    rw [if_pos h]
    simp
  · unfold preClampPercentage
    rw [if_pos h, div_self hd, one_mul]
  · rw [hfst]
    exact roundTo1_nonneg (clamp01_nonneg _)
  · rw [hfst]
    exact roundTo1_le_100 (clamp01_le_100 _)

/-- C3 witness: a concrete sensor (calibration 800/400) reading raw 600. -/
theorem read_percentage_formula_witness :
    (readPercentage 0 (AcqResult.ok 600 1) sWit).1 =
      roundTo1 (clamp01 (((800 : ℚ) - (600 : ℚ)) / ((800 : ℚ) - (400 : ℚ)) * 100)) :=
  (read_percentage_formula 0 sWit 600 1 (by decide)).1

/-- C4. (code bug) `WaterMonitor.tare_sensor` on initialized sensors raises
`AttributeError` instead of returning a success result: `DualSensorMonitor`
defines no `tare_sensor` attribute. -/
theorem tare_sensor_raises_attribute_error :
    waterMonitorTareSensor true "reference" = Except.error PyError.attributeError ∧
    waterMonitorTareSensor true "control" = Except.error PyError.attributeError := by
  constructor <;> with_unfolding_all rfl

/-- C5 counterexample: an exception raised inside the auto-recovery health
check (after the cache update) makes `read_percentage` change the cached
percentage and return the new value, not the previous cached 50. -/
theorem read_percentage_postcache_counterexample :
    cSensor.lastPercentage = some 50 ∧
    (readPercentage 100000 (AcqResult.ok 800 1) cSensor).1 = 0 ∧
    (readPercentage 100000 (AcqResult.ok 800 1) cSensor).2.lastPercentage = some 0 ∧
    (readPercentage 100000 (AcqResult.ok 800 1) cSensor).2.healthMonitor.consecutiveErrors
      = 1 := by with_unfolding_all decide

/-- C5 (amended). `read_percentage` never propagates an exception; when the
exception occurs before the cache update — at acquisition, or as the division
fault when the calibration endpoints are equal — exactly one health-monitor
error is recorded and the previous cached percentage (or 0 if none) is
returned, with the calibration fields and the cached percentage unchanged. -/
theorem read_percentage_exception_paths (now : ℚ) (s : Sensor) (raw : ℤ) (v : ℚ) :
    (readPercentage now AcqResult.raises s =
      (s.lastPercentage.getD 0, { s with healthMonitor := recordError s.healthMonitor })) ∧
    (s.calibrationEmpty = s.calibrationFull →
      readPercentage now (AcqResult.ok raw v) s =
        (s.lastPercentage.getD 0,
         { s with lastReading := some raw, lastVoltage := some v,
                  healthMonitor := recordError (updateReadings now v raw s.healthMonitor) })) := by
  constructor
  · rfl
  · intro h
    unfold readPercentage
    simp only []
    rw [if_pos h]

/-- C5 witness: the division-fault path at equal calibration endpoints
(500/500) returns the cached 25 and records one error. -/
theorem read_percentage_exception_paths_witness :
    readPercentage 0 (AcqResult.ok 500 1) sEq =
      (sEq.lastPercentage.getD 0,
       { sEq with lastReading := some 500, lastVoltage := some 1,
                  healthMonitor := recordError (updateReadings 0 1 500 sEq.healthMonitor) }) :=
  (read_percentage_exception_paths 0 sEq 500 1).2 rfl

/-- The drift sub-check raises whenever its 24-hour gate is open, the history
holds at least 50 samples and any sample is older than 23 hours. -/
lemma checkCalibrationDrift_raises {now : ℚ} {m : HealthMonitor}
    (h1 : 86400 ≤ now - m.lastCalibrationCheck)
    (h2 : 50 ≤ m.voltageHistory.length)
    (h3 : ∃ p ∈ m.voltageHistory, 82800 < now - p.1) :
    checkCalibrationDrift now m = Except.error () := by
  have hany : m.voltageHistory.any (fun p => 82800 < now - p.1) = true := by
    rw [List.any_eq_true]
    obtain ⟨p, hp, hlt⟩ := h3
    exact ⟨p, hp, by simpa using hlt⟩
  unfold checkCalibrationDrift
  rw [if_neg (not_lt.mpr h1), if_neg (not_lt.mpr h2)]
  simp only [hany, if_true]

/-- When the error streak is at most 5 and the drift sub-check raises,
`check_health` propagates the exception with the monitor state untouched. -/
lemma preMonitor_eq_self {m : HealthMonitor} (he : ¬ 5 < m.consecutiveErrors) :
    preMonitor m = m := by
  unfold preMonitor
  rw [if_neg he]

lemma checkHealth_drift_raises {now : ℚ} {m : HealthMonitor}
    (he : ¬ 5 < m.consecutiveErrors)
    (hd : checkCalibrationDrift now m = Except.error ()) :
    checkHealth now m = (Except.error (), m) := by
  unfold checkHealth
  rw [preMonitor_eq_self he, hd]

lemma driftMon_raises : checkCalibrationDrift 100000 driftMon = Except.error () := by
  refine checkCalibrationDrift_raises (by norm_num [driftMon]) (by norm_num [driftMon]) ?_
  exact ⟨(1000, 1), by simp [driftMon], by norm_num⟩

/-- C6. (code bug) When the drift sub-check actually runs (24 h elapsed,
50 samples, at least one sample older than 23 h) it raises a `TypeError`
(`v[1]` on a float) that propagates out of `check_health`, and the
last-checked timestamp is never updated (the monitor state is returned
unchanged). -/
theorem drift_check_raises :
    checkCalibrationDrift 100000 driftMon = Except.error () ∧
    (checkHealth 100000 driftMon).1 = Except.error () ∧
    (checkHealth 100000 driftMon).2 = driftMon := by
  have h := @checkHealth_drift_raises 100000 driftMon
    (by norm_num [driftMon]) driftMon_raises
  exact ⟨driftMon_raises, by rw [h], by rw [h]⟩

/-! ### Structural lemmas about `check_health` -/

lemma preMonitor_voltageHistory (m : HealthMonitor) :
    (preMonitor m).voltageHistory = m.voltageHistory := by
  unfold preMonitor
  split <;> rfl

lemma preMonitor_rawHistory (m : HealthMonitor) :
    (preMonitor m).rawHistory = m.rawHistory := by
  unfold preMonitor
  split <;> rfl

lemma preMonitor_lastCalibrationCheck (m : HealthMonitor) :
    (preMonitor m).lastCalibrationCheck = m.lastCalibrationCheck := by
  unfold preMonitor
  split <;> rfl

lemma preMonitor_consecutiveErrors (m : HealthMonitor) :
    (preMonitor m).consecutiveErrors = m.consecutiveErrors := by
  unfold preMonitor
  split <;> rfl

lemma postMonitor_voltageHistory (m : HealthMonitor) (i : List Issue) :
    (postMonitor m i).voltageHistory = m.voltageHistory := preMonitor_voltageHistory m

lemma postMonitor_rawHistory (m : HealthMonitor) (i : List Issue) :
    (postMonitor m i).rawHistory = m.rawHistory := preMonitor_rawHistory m

lemma postMonitor_lastCalibrationCheck (m : HealthMonitor) (i : List Issue) :
    (postMonitor m i).lastCalibrationCheck = m.lastCalibrationCheck :=
  preMonitor_lastCalibrationCheck m

lemma postMonitor_consecutiveErrors (m : HealthMonitor) (i : List Issue) :
    (postMonitor m i).consecutiveErrors = m.consecutiveErrors :=
  preMonitor_consecutiveErrors m

lemma postMonitor_healthStatus (m : HealthMonitor) (i : List Issue) :
    (postMonitor m i).healthStatus = resolveStatus i (preMonitor m).healthStatus := rfl

lemma checkVoltageStability_congr {a b : HealthMonitor}
    (h : a.voltageHistory = b.voltageHistory) :
    checkVoltageStability a = checkVoltageStability b := by
  unfold checkVoltageStability last10Range last10Mean last10Voltages
  rw [h]

lemma checkStuckReadings_congr {a b : HealthMonitor}
    (h : a.rawHistory = b.rawHistory) :
    checkStuckReadings a = checkStuckReadings b := by
  unfold checkStuckReadings
  rw [h]

lemma checkCalibrationDrift_congr {now : ℚ} {a b : HealthMonitor}
    (h1 : a.voltageHistory = b.voltageHistory)
    (h2 : a.lastCalibrationCheck = b.lastCalibrationCheck) :
    checkCalibrationDrift now a = checkCalibrationDrift now b := by
  unfold checkCalibrationDrift
  rw [h1, h2]

lemma checkHealth_error_eq {now : ℚ} {m : HealthMonitor}
    (hd : checkCalibrationDrift now (preMonitor m) = Except.error ()) :
    checkHealth now m = (Except.error (), preMonitor m) := by
  unfold checkHealth
  rw [hd]

lemma checkHealth_ok_eq {now : ℚ} {m : HealthMonitor} {di : Option Issue}
    (hd : checkCalibrationDrift now (preMonitor m) = Except.ok di) :
    checkHealth now m =
      (Except.ok (mkReport (postMonitor m (issuesFor m di)) (issuesFor m di)),
       postMonitor m (issuesFor m di)) := by
  unfold checkHealth
  rw [hd]

lemma resolveStatus_idem (i : List Issue) (st : HStatus) :
    resolveStatus i (resolveStatus i st) = resolveStatus i st := by
  cases st <;> by_cases h : i = [] <;> simp [resolveStatus, h]

lemma resolveStatus_degraded (i : List Issue) :
    resolveStatus i HStatus.degraded = HStatus.degraded := by
  by_cases h : i = [] <;> simp [resolveStatus, h]

lemma resolveStatus_failed_of_ne_nil {i : List Issue} (h : i ≠ []) :
    resolveStatus i HStatus.failed = HStatus.failed := by
  simp [resolveStatus, h]

lemma resolveStatus_eq_healthy {i : List Issue} {st : HStatus}
    (h : resolveStatus i st = HStatus.healthy) :
    (i = [] ∧ st = HStatus.failed) ∨ st = HStatus.healthy := by
  revert h
  cases st <;> by_cases hi : i = [] <;> simp [resolveStatus, hi]

lemma issuesFor_ne_nil {m : HealthMonitor} (he : 5 < m.consecutiveErrors)
    (d : Option Issue) : issuesFor m d ≠ [] := by
  unfold issuesFor
  rw [if_pos he]
  simp

lemma preMonitor_status_of_gt {m : HealthMonitor} (he : 5 < m.consecutiveErrors) :
    (preMonitor m).healthStatus = HStatus.failed := by
  unfold preMonitor
  rw [if_pos he]

lemma preMonitor_idem (m : HealthMonitor) : preMonitor (preMonitor m) = preMonitor m := by
  by_cases he : 5 < m.consecutiveErrors
  · have he2 : 5 < (preMonitor m).consecutiveErrors := by
      rw [preMonitor_consecutiveErrors]
      exact he
    have hst := preMonitor_status_of_gt he
    have h1 : preMonitor (preMonitor m) =
        { preMonitor m with healthStatus := HStatus.failed } := by
      rw [preMonitor]
      rw [if_pos he2]
    rw [h1]
    conv_rhs => rw [show preMonitor m =
      { preMonitor m with healthStatus := (preMonitor m).healthStatus } from rfl]
    rw [hst]
  · rw [preMonitor_eq_self he]
    exact preMonitor_eq_self he

lemma issuesFor_post (m : HealthMonitor) (i : List Issue) (d : Option Issue) :
    issuesFor (postMonitor m i) d = issuesFor m d := by
  have hv : (preMonitor (postMonitor m i)).voltageHistory =
      (preMonitor m).voltageHistory := by
    rw [preMonitor_voltageHistory, postMonitor_voltageHistory, preMonitor_voltageHistory]
  have hr : (preMonitor (postMonitor m i)).rawHistory = (preMonitor m).rawHistory := by
    rw [preMonitor_rawHistory, postMonitor_rawHistory, preMonitor_rawHistory]
  unfold issuesFor
  rw [checkVoltageStability_congr hv, checkStuckReadings_congr hr,
      postMonitor_consecutiveErrors]

lemma checkCalibrationDrift_pre_post (now : ℚ) (m : HealthMonitor) (i : List Issue) :
    checkCalibrationDrift now (preMonitor (postMonitor m i)) =
      checkCalibrationDrift now (preMonitor m) := by
  refine checkCalibrationDrift_congr ?_ ?_
  · rw [preMonitor_voltageHistory, postMonitor_voltageHistory, preMonitor_voltageHistory]
  · rw [preMonitor_lastCalibrationCheck, postMonitor_lastCalibrationCheck,
        preMonitor_lastCalibrationCheck]

lemma preMonitor_postMonitor (m : HealthMonitor) (d : Option Issue) :
    preMonitor (postMonitor m (issuesFor m d)) = postMonitor m (issuesFor m d) := by
  by_cases he : 5 < m.consecutiveErrors
  · have he2 : 5 < (postMonitor m (issuesFor m d)).consecutiveErrors := by
      rw [postMonitor_consecutiveErrors]
      exact he
    have hst : (postMonitor m (issuesFor m d)).healthStatus = HStatus.failed := by
      rw [postMonitor_healthStatus, preMonitor_status_of_gt he,
          resolveStatus_failed_of_ne_nil (issuesFor_ne_nil he d)]
    have h1 : preMonitor (postMonitor m (issuesFor m d)) =
        { postMonitor m (issuesFor m d) with healthStatus := HStatus.failed } := by
      rw [preMonitor]
      rw [if_pos he2]
    rw [h1]
    conv_rhs => rw [show postMonitor m (issuesFor m d) =
      { postMonitor m (issuesFor m d) with
        healthStatus := (postMonitor m (issuesFor m d)).healthStatus } from rfl]
    rw [hst]
  · refine preMonitor_eq_self ?_
    rw [postMonitor_consecutiveErrors]
    exact he

lemma postMonitor_idem (m : HealthMonitor) (d : Option Issue) :
    postMonitor (postMonitor m (issuesFor m d)) (issuesFor m d) =
      postMonitor m (issuesFor m d) := by
  rw [postMonitor]
  rw [preMonitor_postMonitor m d, postMonitor_healthStatus, resolveStatus_idem]
  rfl

/-- C8. Idempotence of `check_health`: re-running the check on the post-call
monitor state, at the same time and with no new samples recorded, returns the
same report (or the same propagated exception) and the same state. -/
theorem check_health_idempotent (now : ℚ) (m : HealthMonitor) :
    checkHealth now ((checkHealth now m).2) = checkHealth now m := by
  cases hd : checkCalibrationDrift now (preMonitor m) with
  | error e =>
    cases e
    rw [checkHealth_error_eq hd]
    have hd2 : checkCalibrationDrift now (preMonitor (preMonitor m)) =
        Except.error () := by
      rw [preMonitor_idem]
      exact hd
    rw [show ((Except.error (), preMonitor m) :
        Except Unit HealthReport × HealthMonitor).2 = preMonitor m from rfl]
    rw [checkHealth_error_eq hd2, preMonitor_idem]
  | ok di =>
    rw [checkHealth_ok_eq hd]
    rw [show ((Except.ok (mkReport (postMonitor m (issuesFor m di)) (issuesFor m di)),
        postMonitor m (issuesFor m di)) :
        Except Unit HealthReport × HealthMonitor).2 = postMonitor m (issuesFor m di)
        from rfl]
    have hd2 : checkCalibrationDrift now
        (preMonitor (postMonitor m (issuesFor m di))) = Except.ok di := by
      rw [checkCalibrationDrift_pre_post]
      exact hd
    rw [checkHealth_ok_eq hd2, issuesFor_post, postMonitor_idem]

/-- C10. Sticky degraded status: a `healthy` verdict can only arise from a
prior non-`healthy` status if that status was `failed` with an empty issue
list; and from a `degraded` status with at most 5 consecutive errors,
`check_health` leaves the status `degraded` (and the error count unchanged)
even when no sub-check reports an issue, so every subsequent check stays
`degraded`. -/
theorem degraded_status_sticky (now : ℚ) (m : HealthMonitor) :
    (∀ r, (checkHealth now m).1 = Except.ok r → r.status = HStatus.healthy →
        m.healthStatus ≠ HStatus.healthy →
        m.healthStatus = HStatus.failed ∧ r.issues = []) ∧
    (m.healthStatus = HStatus.degraded → m.consecutiveErrors ≤ 5 →
        (checkHealth now m).2.healthStatus = HStatus.degraded ∧
        (checkHealth now m).2.consecutiveErrors = m.consecutiveErrors ∧
        ∀ r, (checkHealth now m).1 = Except.ok r → r.status = HStatus.degraded) := by
  constructor
  · intro r hr hst hne
    cases hd : checkCalibrationDrift now (preMonitor m) with
    | error e =>
      rw [checkHealth_error_eq hd] at hr
      exact absurd hr (by simp)
    | ok di =>
      rw [checkHealth_ok_eq hd] at hr
      have hrr : r = mkReport (postMonitor m (issuesFor m di)) (issuesFor m di) := by
        have := hr
        simp only [Prod.fst] at this
        exact (Except.ok.inj this).symm
      subst hrr
      have hstatus : resolveStatus (issuesFor m di) (preMonitor m).healthStatus =
          HStatus.healthy := hst
      rcases resolveStatus_eq_healthy hstatus with ⟨hnil, hfail⟩ | hh
      · by_cases he : 5 < m.consecutiveErrors
        · exact absurd hnil (issuesFor_ne_nil he di)
        · rw [preMonitor_eq_self he] at hfail
          exact ⟨hfail, hnil⟩
      · by_cases he : 5 < m.consecutiveErrors
        · rw [preMonitor_status_of_gt he] at hh
          exact absurd hh (by simp)
        · rw [preMonitor_eq_self he] at hh
          exact absurd hh hne
  · intro hdeg herr
    have he : ¬ 5 < m.consecutiveErrors := not_lt.mpr herr
    cases hd : checkCalibrationDrift now (preMonitor m) with
    | error e =>
      rw [checkHealth_error_eq hd]
      refine ⟨?_, ?_, ?_⟩
      · rw [preMonitor_eq_self he]
        exact hdeg
      · rw [preMonitor_eq_self he]
      · intro r hr
        exact absurd hr (by simp)
    | ok di =>
      rw [checkHealth_ok_eq hd]
      have hstat : (postMonitor m (issuesFor m di)).healthStatus = HStatus.degraded := by
        rw [postMonitor_healthStatus, preMonitor_eq_self he, hdeg, resolveStatus_degraded]
      refine ⟨hstat, postMonitor_consecutiveErrors m _, ?_⟩
      intro r hr
      have hrr : r = mkReport (postMonitor m (issuesFor m di)) (issuesFor m di) := by
        simp only [Prod.fst] at hr
        exact (Except.ok.inj hr).symm
      subst hrr
      exact hstat

/-- A failed monitor with no samples and no errors (used to show the one
transition back to `healthy`). -/
def failedMon : HealthMonitor :=
  { sensorName := "Reference"
    voltageHistory := []
    rawHistory := []
    lastCalibrationCheck := 0
    consecutiveErrors := 0
    healthStatus := HStatus.failed }

/-- The report `check_health` produces for `failedMon` at time 0. -/
def failedReport : HealthReport :=
  mkReport (postMonitor failedMon (issuesFor failedMon none)) (issuesFor failedMon none)

/-- C10 witness: a degraded monitor with empty histories and no errors stays
degraded through `check_health`, while a failed monitor with an empty issue
list is the one case that demotes to `healthy`. -/
theorem degraded_status_sticky_witness :
    (failedMon.healthStatus = HStatus.failed ∧ failedReport.issues = []) ∧
    (checkHealth 0 degradedMon).2.healthStatus = HStatus.degraded :=
  ⟨(degraded_status_sticky 0 failedMon).1 failedReport (by with_unfolding_all decide)
      (by with_unfolding_all decide) (by with_unfolding_all decide),
   ((degraded_status_sticky 0 degradedMon).2 rfl (by norm_num [degradedMon])).1⟩

/-- C7. With distinct calibration endpoints the pre-clamp percentage is
non-increasing in the raw reading, in both the `empty > full` branch and the
inverted fallback branch. -/
theorem percentage_monotone_in_raw (e f r1 r2 : ℤ) (hne : e ≠ f) (h12 : r1 < r2) :
    preClampPercentage e f r2 ≤ preClampPercentage e f r1 := by
  unfold preClampPercentage
  have hr : (r1 : ℚ) ≤ (r2 : ℚ) := by exact_mod_cast h12.le
  rcases lt_or_gt_of_ne hne with hef | hef
  · rw [if_neg (not_lt.mpr hef.le), if_neg (not_lt.mpr hef.le)]
    have hd : ((e : ℚ) - (f : ℚ)) < 0 := by
      have : (e : ℚ) < (f : ℚ) := by exact_mod_cast hef
      linarith
    have h1 : ((r2 : ℚ) - (f : ℚ)) / ((e : ℚ) - (f : ℚ)) ≤
        ((r1 : ℚ) - (f : ℚ)) / ((e : ℚ) - (f : ℚ)) := by
      rw [div_eq_mul_inv, div_eq_mul_inv]
      exact mul_le_mul_of_nonpos_right (by linarith) (inv_nonpos.mpr hd.le)
    exact mul_le_mul_of_nonneg_right h1 (by norm_num)
  · rw [if_pos hef, if_pos hef]
    have hd : (0 : ℚ) < (e : ℚ) - (f : ℚ) := by
      have : (f : ℚ) < (e : ℚ) := by exact_mod_cast hef
      linarith
    have h1 : ((e : ℚ) - (r2 : ℚ)) / ((e : ℚ) - (f : ℚ)) ≤
        ((e : ℚ) - (r1 : ℚ)) / ((e : ℚ) - (f : ℚ)) :=
      (div_le_div_iff_of_pos_right hd).mpr (by linarith)
    exact mul_le_mul_of_nonneg_right h1 (by norm_num)

/-- C7 witness: inverted calibration (empty 400 < full 800), raw 500 < 600. -/
theorem percentage_monotone_in_raw_witness :
    preClampPercentage 400 800 600 ≤ preClampPercentage 400 800 500 :=
  percentage_monotone_in_raw 400 800 500 600 (by decide) (by decide)

/-- C9 counterexample: ten samples (nine 0 V, one 0.9 V) whose mean 0.09 V is
below the 0.1 V disconnection threshold, yet the check reports the unstable
issue (the range check returns first), not the too-low issue. -/
theorem voltage_low_shadowed_counterexample :
    10 ≤ vMon.voltageHistory.length ∧
    last10Mean vMon < 1/10 ∧
    checkVoltageStability vMon = some (Issue.unstableVoltage (9/10)) := by
  with_unfolding_all decide

/-- C9 (amended). Voltage-stability check, with the three conditions tested
in priority order (the range check short-circuits): with at least 10 samples,
range > 0.5 V reports unstable; otherwise mean < 0.1 V reports too-low;
otherwise mean > 3.2 V reports too-high; otherwise nothing; with fewer than
10 samples, nothing. -/
theorem voltage_stability_characterization (m : HealthMonitor) :
    (m.voltageHistory.length < 10 → checkVoltageStability m = none) ∧
    (10 ≤ m.voltageHistory.length →
      (1/2 < last10Range m →
          checkVoltageStability m = some (Issue.unstableVoltage (last10Range m))) ∧
      (last10Range m ≤ 1/2 → last10Mean m < 1/10 →
          checkVoltageStability m = some Issue.voltageTooLow) ∧
      (last10Range m ≤ 1/2 → 1/10 ≤ last10Mean m → 16/5 < last10Mean m →
          checkVoltageStability m = some Issue.voltageTooHigh) ∧
      (last10Range m ≤ 1/2 → 1/10 ≤ last10Mean m → last10Mean m ≤ 16/5 →
          checkVoltageStability m = none)) := by
  constructor
  · intro h
    unfold checkVoltageStability
    rw [if_pos h]
  · intro h
    have hn : ¬ m.voltageHistory.length < 10 := not_lt.mpr h
    refine ⟨?_, ?_, ?_, ?_⟩
    · intro hr
      unfold checkVoltageStability
      rw [if_neg hn, if_pos hr]
    · intro hr ha
      unfold checkVoltageStability
      rw [if_neg hn, if_neg (not_lt.mpr hr), if_pos ha]
    · intro hr ha hh
      unfold checkVoltageStability
      rw [if_neg hn, if_neg (not_lt.mpr hr), if_neg (not_lt.mpr ha), if_pos hh]
    · intro hr ha hh
      unfold checkVoltageStability
      rw [if_neg hn, if_neg (not_lt.mpr hr), if_neg (not_lt.mpr ha),
          if_neg (not_lt.mpr hh)]

/-- C9 witness: ten stable samples at 0.05 V report the too-low issue. -/
theorem voltage_stability_characterization_witness :
    checkVoltageStability vMonLow = some Issue.voltageTooLow :=
  ((voltage_stability_characterization vMonLow).2 (by with_unfolding_all decide)).2.1
    (by with_unfolding_all decide) (by with_unfolding_all decide)

/-! ### Cooldown invariant -/

/-- Invariant tying the leak-detection state to the persisted alert trail:
`last_alert_time` is the timestamp of the most recent persisted alert, any
two persisted alerts are at least `cooldown` apart, and every persisted alert
is no later than the current time `t`. -/
def AlertInv (cooldown : ℚ) (s : LeakState) (t : ℚ) : Prop :=
  s.lastAlertTime = s.alertTimes.getLast? ∧
  List.Pairwise (fun a b => cooldown ≤ b - a) s.alertTimes ∧
  ∀ a ∈ s.alertTimes, a ≤ t

lemma alertInv_step {cfg : LeakConfig} {s : LeakState} {t now d : ℚ}
    (hc : 0 ≤ cfg.alertCooldown) (h : AlertInv cfg.alertCooldown s t)
    (ht : t ≤ now) :
    AlertInv cfg.alertCooldown (checkForLeak cfg now d s) now := by
  obtain ⟨h1, h2, h3⟩ := h
  have h3n : ∀ a ∈ s.alertTimes, a ≤ now := fun a ha => le_trans (h3 a ha) ht
  unfold checkForLeak triggerAlert
  by_cases hthr : cfg.leakThreshold < |d|
  · rw [if_pos hthr]
    by_cases hneed : cfg.readingsNeeded ≤ s.consecutiveLeakReadings + 1
    · rw [if_pos hneed]
      cases hla : s.lastAlertTime with
      | none =>
        have hnil : s.alertTimes = [] :=
          List.getLast?_eq_none_iff.mp (h1.symm.trans hla)
        refine ⟨?_, ?_, ?_⟩
        · simp [hnil]
        · simp [hnil]
        · intro a ha
          simp [hnil] at ha
          simp [ha]
      | some tl =>
        by_cases hcd : now - tl < cfg.alertCooldown
        · simp only [if_pos hcd]
          refine ⟨?_, h2, h3n⟩
          show some tl = s.alertTimes.getLast?
          rw [← hla]
          exact h1
        · simp only [if_neg hcd]
          have hgl : s.alertTimes.getLast? = some tl := h1.symm.trans hla
          obtain ⟨l2, hl2⟩ := List.getLast?_eq_some_iff.mp hgl
          have hcd2 : cfg.alertCooldown ≤ now - tl := not_lt.mp hcd
          have hgap : ∀ a ∈ s.alertTimes, cfg.alertCooldown ≤ now - a := by
            intro a ha
            rw [hl2] at ha
            rcases List.mem_append.mp ha with ha2 | ha2
            · have hp := (List.pairwise_append.mp (hl2 ▸ h2)).2.2 a ha2 tl (by simp)
              linarith
            · have haeq : a = tl := by simpa using ha2
              rw [haeq]
              exact hcd2
          refine ⟨?_, ?_, ?_⟩
          · simp [List.getLast?_concat]
          · rw [List.pairwise_append]
            refine ⟨h2, by simp, ?_⟩
            intro a ha b hb
            have hbe : b = now := by simpa using hb
            rw [hbe]
            exact hgap a ha
          · intro a ha
            rcases List.mem_append.mp ha with ha2 | ha2
            · exact h3n a ha2
            · have : a = now := by simpa using ha2
              simp [this]
    · rw [if_neg hneed]
      exact ⟨h1, h2, h3n⟩
  · rw [if_neg hthr]
    exact ⟨h1, h2, h3n⟩

lemma alertInv_process {cfg : LeakConfig} (hc : 0 ≤ cfg.alertCooldown) :
    ∀ (inputs : List (ℚ × ℚ)) (s : LeakState) (t : ℚ),
      AlertInv cfg.alertCooldown s t →
      List.Chain (· ≤ ·) t (inputs.map Prod.fst) →
      List.Pairwise (fun a b => cfg.alertCooldown ≤ b - a)
        (processReadings cfg inputs s).alertTimes := by
  intro inputs
  induction inputs with
  | nil =>
    intro s t h _
    exact h.2.1
  | cons p rest ih =>
    intro s t h hch
    rw [List.map_cons, List.chain_cons] at hch
    rw [processReadings]
    exact ih (checkForLeak cfg p.1 p.2 s) p.1 (alertInv_step hc h hch.1) hch.2

/-- C2. Alert cooldown: a qualifying cycle whose alert attempt falls inside
the cooldown window leaves everything except the (incremented, NOT reset)
consecutive counter unchanged — no alert row, no notification, same
`last_alert_time`; over any monitoring trace with nondecreasing timestamps
and nonnegative cooldown, any two persisted alerts are at least
`alert_cooldown` apart; and the concrete six-cycle trace of qualifying
readings dispatches exactly one notification. -/
theorem alert_cooldown_suppression :
    (∀ (cfg : LeakConfig) (now t d : ℚ) (s : LeakState),
        cfg.leakThreshold < |d| →
        cfg.readingsNeeded ≤ s.consecutiveLeakReadings + 1 →
        s.lastAlertTime = some t →
        now - t < cfg.alertCooldown →
        checkForLeak cfg now d s =
          { s with consecutiveLeakReadings := s.consecutiveLeakReadings + 1 }) ∧
    (∀ (cfg : LeakConfig) (t0 : ℚ) (inputs : List (ℚ × ℚ)),
        0 ≤ cfg.alertCooldown →
        List.Chain (· ≤ ·) t0 (inputs.map Prod.fst) →
        List.Pairwise (fun a b => cfg.alertCooldown ≤ b - a)
          (processReadings cfg inputs initLeakState).alertTimes) ∧
    (processReadings { leakThreshold := 5, readingsNeeded := 3, alertCooldown := 3600 }
        [(0, 6), (60, 6), (120, 6), (180, 6), (240, 6), (300, 6)] initLeakState =
      { consecutiveLeakReadings := 3, lastAlertTime := some 120,
        alertTimes := [120], dispatchCount := 1 }) := by
  refine ⟨?_, ?_, by with_unfolding_all decide⟩
  · intro cfg now t d s h1 h2 hla h4
    unfold checkForLeak triggerAlert
    rw [if_pos h1, if_pos h2, hla]
    simp only [if_pos h4]
  · intro cfg t0 inputs hc hch
    refine alertInv_process hc inputs initLeakState t0 ⟨rfl, List.Pairwise.nil, ?_⟩ hch
    intro a ha
    simp [initLeakState] at ha

/-- C2 witness: a suppressed attempt at t = 300 after an alert at t = 120
with a 3600 s cooldown only increments the counter. -/
theorem alert_cooldown_suppression_witness :
    (checkForLeak { leakThreshold := 5, readingsNeeded := 3, alertCooldown := 3600 }
        300 6 { consecutiveLeakReadings := 2, lastAlertTime := some 120,
                alertTimes := [120], dispatchCount := 1 } =
      { consecutiveLeakReadings := 2 + 1, lastAlertTime := some 120,
        alertTimes := [120], dispatchCount := 1 }) ∧
    List.Pairwise (fun a b => (3600 : ℚ) ≤ b - a)
      (processReadings { leakThreshold := 5, readingsNeeded := 3, alertCooldown := 3600 }
        [(0, 6)] initLeakState).alertTimes :=
  ⟨alert_cooldown_suppression.1 _ 300 120 6 _ (by norm_num) (by norm_num) rfl
      (by norm_num),
   alert_cooldown_suppression.2.1
      { leakThreshold := 5, readingsNeeded := 3, alertCooldown := 3600 } 0 [(0, 6)]
      (by norm_num) (List.Chain.cons le_rfl List.Chain.nil)⟩

end WaterLevel
